import Mathlib

/-!
Verification of the training-orchestration entry point
`Voxel_level_BrainAgePrediction_pretraining/main_unetr.py`.

The file embeds the module-level setup and the `main` function as an
explicit event trace parameterised by the configuration
(`UNETR_OUTPUT_DIR`, `UNETR_PROJECT_NAME`, `FULL_DATA_CSV`, `TEST_CSV`,
optimizer/scheduler parameters, `UNETR_MAX_EPOCHS`), by whether a wandb
run is already active, by CUDA availability, and by the contents of the
checkpoint directory.  The helpers `load_last_model`, `train`,
`load_data` and `test` are imported by the entry point from sibling
modules that are not part of the repository snapshot; where a claim
depends on their internals they are modelled from the specification,
as marked in their doc comments.
-/

/-- Validation-loss value.  The checkpoint stores last/best validation
losses; `Loss.inf` is the sentinel used before any validation happened. -/
inductive Loss where
  | inf : Loss
  | val : Int → Loss
deriving DecidableEq, Repr

/-- Modelled from the spec: the default "last validation loss" sentinel
returned by `load_last_model` when no checkpoint exists
("starts from epoch zero with default state"). -/
def defaultLastValLoss : Loss := Loss.inf

/-- Modelled from the spec: the default "best validation loss" sentinel
returned by `load_last_model` when no checkpoint exists. -/
def defaultBestValLoss : Loss := Loss.inf

/-- A checkpoint record: "a checkpoint record bundling {epoch index,
model state, optimizer state, scheduler state, last validation loss,
best validation loss}" (spec, Data model).  The three opaque framework
states are abstracted as natural-number tokens. -/
structure Checkpoint where
  epoch : Nat
  modelState : Nat
  optState : Nat
  schedState : Nat
  lastValLoss : Loss
  bestValLoss : Loss
deriving DecidableEq, Repr

/-- The in-memory model/optimizer/scheduler state bundle that
`load_last_model` receives and may overwrite. -/
structure MOS where
  modelState : Nat
  optState : Nat
  schedState : Nat
deriving DecidableEq, Repr

/-- The tuple returned by `load_last_model`:
`model, optimizer, scheduler, start_epoch, last_val_loss, best_val_loss`. -/
structure ResumeResult where
  st : MOS
  startEpoch : Nat
  lastValLoss : Loss
  bestValLoss : Loss
deriving DecidableEq, Repr

/-- A checkpoint directory: the files present in `UNETR_OUTPUT_DIR`,
each a checkpoint record tagged with its save time (a natural number). -/
def CheckpointDir : Type := List (Nat × Checkpoint)

/-- The most recent entry of a checkpoint directory: the entry with the
greatest save time (`none` on an empty directory). -/
def latest : List (Nat × Checkpoint) → Option (Nat × Checkpoint)
  | [] => none
  | e :: rest =>
    match latest rest with
    | none => some e
    | some e' => if e.1 ≥ e'.1 then some e else some e'

/-- Modelled from the spec: `load_last_model` (imported by the entry
point from the `train` module, absent from the snapshot).  "Attempts to
load the most recent checkpoint from a directory; on success, restores
model/optimizer/scheduler state and resumes the epoch counter and
best/last validation loss; on absence, starts from epoch zero with
default state." -/
def load_last_model (st : MOS) (dir : List (Nat × Checkpoint)) : ResumeResult :=
  match latest dir with
  | none => ⟨st, 0, defaultLastValLoss, defaultBestValLoss⟩
  | some (_, c) =>
    ⟨⟨c.modelState, c.optState, c.schedState⟩, c.epoch, c.lastValLoss, c.bestValLoss⟩

/-- Modelled from the spec: the epoch indices executed by `train`
(imported from the absent `train` module): "Iterates epochs from the
resumed start index to a configured maximum". -/
def trainEpochs (startEpoch maxEpochs : Nat) : List Nat :=
  List.range' startEpoch (maxEpochs - startEpoch)

/-- The configuration values the entry point imports from `config`. -/
structure Config where
  outputDir : String
  projectName : String
  fullDataCsv : String
  testCsv : String
  optimizerClass : String
  optimizerParams : List (String × Int)
  schedulerClass : String
  schedulerParams : List (String × Int)
  maxEpochs : Nat
deriving DecidableEq, Repr

/-- One observable step of `main_unetr.py`, in source order. -/
inductive Event where
  | printConfigEv : Event
  | setEnvVar : String → String → Event
  | wandbInit : String → Event
  | setWandbRunName : String → Event
  | setCudnnBenchmark : Bool → Event
  | selectDevice : Bool → Event
  | makeDirs : String → Bool → Event
  | buildUNETR : Nat → Nat → Nat → Nat × Nat × Nat → Event
  | dataParallel : Event
  | buildOptimizer : String → List (String × Int) → Event
  | buildScheduler : String → List (String × Int) → Event
  | loadLastModelEv : String → Event
  | loadDataEv : String → String → Event
  | trainEv : Nat → Nat → String → Event
  | testEv : String → String → Event
deriving DecidableEq, Repr

/-- The module-level setup of `main_unetr.py` (lines 39-52):
`print_config()`, set `PYTORCH_CUDA_ALLOC_CONF`, initialise wandb when
no run is active (naming the run `x`), enable the cudnn benchmark, set
`TORCH_USE_CUDA_DSA`, select the device. -/
def setupTrace (cfg : Config) (wandbActive : Bool) (cudaAvailable : Bool) : List Event :=
  [Event.printConfigEv,
   Event.setEnvVar "PYTORCH_CUDA_ALLOC_CONF" "expandable_segments:True"]
  ++ (if wandbActive then []
      else [Event.wandbInit cfg.projectName, Event.setWandbRunName "x"])
  ++ [Event.setCudnnBenchmark true,
      Event.setEnvVar "TORCH_USE_CUDA_DSA" "1",
      Event.selectDevice cudaAvailable]

/-- The body of `main()` (lines 55-91): create the output directory,
build the UNETR model with hard-coded shape, wrap in DataParallel,
build optimizer and scheduler from the configured class references and
parameter mappings, resume
from the last checkpoint, build the data loaders from the configured
CSV paths, train from the resumed start epoch, and test. -/
def mainBody (cfg : Config) (st0 : MOS) (dir : List (Nat × Checkpoint)) : List Event :=
  [Event.makeDirs cfg.outputDir true,
   Event.buildUNETR 3 1 1 (128, 160, 128),
   Event.dataParallel,
   Event.buildOptimizer cfg.optimizerClass cfg.optimizerParams,
   Event.buildScheduler cfg.schedulerClass cfg.schedulerParams,
   Event.loadLastModelEv cfg.outputDir,
   Event.loadDataEv cfg.testCsv cfg.fullDataCsv,
   Event.trainEv cfg.maxEpochs (load_last_model st0 dir).startEpoch cfg.outputDir,
   Event.testEv cfg.outputDir cfg.testCsv]

/-- The full trace of a run of `main_unetr.py`: module-level setup, the
device re-selection under the `__main__` guard (lines 93-98), then
`main()`. -/
def programTrace (cfg : Config) (wandbActive cudaAvailable : Bool)
    (st0 : MOS) (dir : List (Nat × Checkpoint)) : List Event :=
  setupTrace cfg wandbActive cudaAvailable
  ++ [Event.selectDevice cudaAvailable]
  ++ mainBody cfg st0 dir

/-- Runs a list of steps sequentially with no exception handling: the
first failing step aborts the run with its error; there is no catch,
wrap or retry anywhere in the entry point. -/
def runSteps (f : Event → Except String Unit) : List Event → Except String Unit
  | [] => Except.ok ()
  | e :: rest =>
    match f e with
    | Except.error msg => Except.error msg
    | Except.ok _ => runSteps f rest

/-- A run of the whole program, each step interpreted by `f` (the
external framework's behaviour, which may raise). -/
def runProgram (cfg : Config) (wandbActive cudaAvailable : Bool)
    (st0 : MOS) (dir : List (Nat × Checkpoint))
    (f : Event → Except String Unit) : Except String Unit :=
  runSteps f (programTrace cfg wandbActive cudaAvailable st0 dir)

/-- `os.makedirs(path, exist_ok=existOk)` over a filesystem modelled as
the list of existing directories: with `exist_ok=True` it succeeds
whether or not the directory exists, and without it it fails on an
existing directory. -/
def makedirs (fs : List String) (path : String) (existOk : Bool) :
    Except Unit (List String) :=
  if path ∈ fs then
    if existOk then Except.ok fs else Except.error ()
  else
    Except.ok (path :: fs)

/-- The environment-variable writes performed by a trace, in order. -/
def envWrites (tr : List Event) : List (String × String) :=
  tr.filterMap fun e =>
    match e with
    | Event.setEnvVar n v => some (n, v)
    | _ => none

/-- The `load_data` calls of a trace: (test_set_path, full_data_path). -/
def loadDataCalls (tr : List Event) : List (String × String) :=
  tr.filterMap fun e =>
    match e with
    | Event.loadDataEv t fd => some (t, fd)
    | _ => none

/-- The `test` calls of a trace: (directory_name, csv path). -/
def testCalls (tr : List Event) : List (String × String) :=
  tr.filterMap fun e =>
    match e with
    | Event.testEv d csv => some (d, csv)
    | _ => none

/-- The `train` calls of a trace: (max_epochs, start_epoch, directory). -/
def trainCalls (tr : List Event) : List (Nat × Nat × String) :=
  tr.filterMap fun e =>
    match e with
    | Event.trainEv m s d => some (m, s, d)
    | _ => none

/-- The phase of an event in the spec's linear order: configure
environment (0), build model (1), build optimizer and scheduler (2),
attempt checkpoint resume (3), build data loaders (4), run the training
loop (5), run final evaluation (6). -/
def phase : Event → Nat
  | Event.printConfigEv => 0
  | Event.setEnvVar _ _ => 0
  | Event.wandbInit _ => 0
  | Event.setWandbRunName _ => 0
  | Event.setCudnnBenchmark _ => 0
  | Event.selectDevice _ => 0
  | Event.makeDirs _ _ => 0
  | Event.buildUNETR _ _ _ _ => 1
  | Event.dataParallel => 1
  | Event.buildOptimizer _ _ => 2
  | Event.buildScheduler _ _ => 2
  | Event.loadLastModelEv _ => 3
  | Event.loadDataEv _ _ => 4
  | Event.trainEv _ _ _ => 5
  | Event.testEv _ _ => 6

/-- The UNETR constructions of a trace:
(spatial_dims, in_channels, out_channels, img_size). -/
def unetrBuilds (tr : List Event) : List (Nat × Nat × Nat × (Nat × Nat × Nat)) :=
  tr.filterMap fun e =>
    match e with
    | Event.buildUNETR sd ic oc sz => some (sd, ic, oc, sz)
    | _ => none

/-- The wandb run names assigned by a trace. -/
def runNameWrites (tr : List Event) : List String :=
  tr.filterMap fun e =>
    match e with
    | Event.setWandbRunName n => some n
    | _ => none

/-- The wandb initialisations of a trace (project names). -/
def wandbInits (tr : List Event) : List String :=
  tr.filterMap fun e =>
    match e with
    | Event.wandbInit p => some p
    | _ => none

/-- The `os.makedirs` calls of a trace: (path, exist_ok flag). -/
def makeDirsCalls (tr : List Event) : List (String × Bool) :=
  tr.filterMap fun e =>
    match e with
    | Event.makeDirs p ok => some (p, ok)
    | _ => none

/-- The optimizer constructions of a trace: (class, parameter mapping). -/
def optimizerBuilds (tr : List Event) : List (String × List (String × Int)) :=
  tr.filterMap fun e =>
    match e with
    | Event.buildOptimizer c ps => some (c, ps)
    | _ => none

/-- The scheduler constructions of a trace: (class, parameter mapping). -/
def schedulerBuilds (tr : List Event) : List (String × List (String × Int)) :=
  tr.filterMap fun e =>
    match e with
    | Event.buildScheduler c ps => some (c, ps)
    | _ => none

/-- `latest` returns an entry of the directory. -/
theorem latest_mem {dir : List (Nat × Checkpoint)} {e : Nat × Checkpoint}
    (h : latest dir = some e) : e ∈ dir := by
  induction dir generalizing e with
  | nil => simp [latest] at h
  | cons a rest ih =>
    simp only [latest] at h
    cases hrest : latest rest with
    | none => rw [hrest] at h; simp at h; simp [h]
    | some e' =>
      rw [hrest] at h
      by_cases hc : a.1 ≥ e'.1
      · simp [hc] at h; simp [h]
      · simp [hc] at h
        exact List.mem_cons_of_mem a (ih (h ▸ hrest))

/-- `latest` is `none` exactly on the empty directory. -/
theorem latest_eq_none {dir : List (Nat × Checkpoint)} :
    latest dir = none ↔ dir = [] := by
  cases dir with
  | nil => simp [latest]
  | cons a rest =>
    simp only [latest]
    constructor
    · intro h
      cases hrest : latest rest with
      | none => rw [hrest] at h; simp at h
      | some e' =>
        rw [hrest] at h
        by_cases hc : a.1 ≥ e'.1 <;> simp [hc] at h
    · intro h
      simp at h

/-- `latest` returns an entry with the greatest save time. -/
theorem latest_maximal {dir : List (Nat × Checkpoint)} {e : Nat × Checkpoint}
    (h : latest dir = some e) : ∀ p ∈ dir, p.1 ≤ e.1 := by
  induction dir generalizing e with
  | nil => simp [latest] at h
  | cons a rest ih =>
    simp only [latest] at h
    intro p hp
    rcases List.mem_cons.mp hp with hpa | hpr
    · cases hrest : latest rest with
      | none =>
        rw [hrest] at h
        simp only [Option.some.injEq] at h
        rw [hpa, h]
      | some e' =>
        rw [hrest] at h
        by_cases hc : a.1 ≥ e'.1
        · simp only [if_pos hc, Option.some.injEq] at h
          rw [hpa, h]
        · simp only [if_neg hc, Option.some.injEq] at h
          rw [hpa, ← h]
          omega
    · cases hrest : latest rest with
      | none =>
        rw [latest_eq_none.mp hrest] at hpr
        simp at hpr
      | some e' =>
        rw [hrest] at h
        by_cases hc : a.1 ≥ e'.1
        · simp only [if_pos hc, Option.some.injEq] at h
          rw [← h]
          exact le_trans (ih hrest p hpr) hc
        · simp only [if_neg hc, Option.some.injEq] at h
          exact h ▸ ih hrest p hpr

/-- **C1.** `load_last_model` restores exactly the epoch index and the
last/best validation losses saved in the most recent checkpoint of the
directory (the entry of greatest save time, which belongs to the
directory), and on an empty directory returns start epoch `0`, the
unchanged input state and the default loss sentinels — for every state
of the checkpoint directory. -/
theorem resume_restores_latest_checkpoint (st : MOS) (dir : List (Nat × Checkpoint)) :
    (dir = [] →
      load_last_model st dir = ⟨st, 0, defaultLastValLoss, defaultBestValLoss⟩) ∧
    (∀ t c, latest dir = some (t, c) →
      load_last_model st dir =
        ⟨⟨c.modelState, c.optState, c.schedState⟩, c.epoch, c.lastValLoss, c.bestValLoss⟩ ∧
      (t, c) ∈ dir ∧ ∀ p ∈ dir, p.1 ≤ t) := by
  constructor
  · rintro rfl
    rfl
  · intro t c h
    refine ⟨?_, latest_mem h, fun p hp => latest_maximal h p hp⟩
    simp [load_last_model, h]

/-- Witness for C1 at a concrete two-checkpoint directory: the entry
saved at time `2` wins and its epoch and losses are restored. -/
theorem resume_restores_latest_checkpoint_witness :
    latest [(1, ⟨4, 10, 11, 12, Loss.val 5, Loss.val 3⟩),
            (2, ⟨6, 20, 21, 22, Loss.val 2, Loss.val 1⟩)] =
        some (2, ⟨6, 20, 21, 22, Loss.val 2, Loss.val 1⟩) ∧
    load_last_model ⟨7, 8, 9⟩
        [(1, ⟨4, 10, 11, 12, Loss.val 5, Loss.val 3⟩),
         (2, ⟨6, 20, 21, 22, Loss.val 2, Loss.val 1⟩)] =
      ⟨⟨20, 21, 22⟩, 6, Loss.val 2, Loss.val 1⟩ :=
  ⟨by decide,
   ((resume_restores_latest_checkpoint ⟨7, 8, 9⟩
        [(1, ⟨4, 10, 11, 12, Loss.val 5, Loss.val 3⟩),
         (2, ⟨6, 20, 21, 22, Loss.val 2, Loss.val 1⟩)]).2
      2 ⟨6, 20, 21, 22, Loss.val 2, Loss.val 1⟩ (by decide)).1⟩

/-- **C2.** Checkpoint resume is idempotent: feeding the state produced
by `load_last_model` back into `load_last_model` on the same directory
yields the same result, and on a directory with no checkpoint the
model/optimizer/scheduler state is returned unchanged. -/
theorem resume_idempotent (st : MOS) (dir : List (Nat × Checkpoint)) :
    load_last_model (load_last_model st dir).st dir = load_last_model st dir ∧
    (dir = [] → (load_last_model st dir).st = st) := by
  constructor
  · cases h : latest dir with
    | none => simp [load_last_model, h]
    | some e =>
      cases e with
      | mk t c => simp [load_last_model, h]
  · rintro rfl
    rfl

/-- Witness for C2 on the empty directory: resume twice equals resume
once and the fresh state survives untouched. -/
theorem resume_idempotent_witness :
    load_last_model (load_last_model ⟨1, 2, 3⟩ []).st [] = load_last_model ⟨1, 2, 3⟩ [] ∧
    (load_last_model ⟨1, 2, 3⟩ []).st = ⟨1, 2, 3⟩ :=
  ⟨(resume_idempotent ⟨1, 2, 3⟩ []).1, (resume_idempotent ⟨1, 2, 3⟩ []).2 rfl⟩

/-- The trace contains exactly one `train` call, with the configured
maximum epochs, the resumed start epoch, and the output directory. -/
theorem trainCalls_programTrace (cfg : Config) (w cu : Bool) (st0 : MOS)
    (dir : List (Nat × Checkpoint)) :
    trainCalls (programTrace cfg w cu st0 dir) =
      [(cfg.maxEpochs, (load_last_model st0 dir).startEpoch, cfg.outputDir)] := by
  cases w <;> simp [programTrace, setupTrace, mainBody, trainCalls]

/-- **C3.** `train` is invoked exactly once, with `start_epoch` equal
to the epoch index returned by `load_last_model`; the epochs it runs
are exactly those from `start_epoch` (inclusive) up to `max_epochs`
(exclusive) — none below the resumed index, none skipped in between —
and the first epoch run is `start_epoch` itself. -/
theorem train_starts_at_resumed_epoch (cfg : Config) (w cu : Bool) (st0 : MOS)
    (dir : List (Nat × Checkpoint)) :
    trainCalls (programTrace cfg w cu st0 dir) =
      [(cfg.maxEpochs, (load_last_model st0 dir).startEpoch, cfg.outputDir)] ∧
    (∀ s m e, e ∈ trainEpochs s m ↔ s ≤ e ∧ e < m) ∧
    (∀ s m, s < m → (trainEpochs s m).head? = some s) := by
  refine ⟨trainCalls_programTrace cfg w cu st0 dir, ?_, ?_⟩
  · intro s m e
    rw [trainEpochs, List.mem_range'_1]
    omega
  · intro s m hsm
    rw [trainEpochs]
    obtain ⟨k, hk⟩ : ∃ k, m - s = k + 1 := ⟨m - s - 1, by omega⟩
    rw [hk]
    rfl

/-- Witness for C3: with one checkpoint saved at epoch `7`, the single
`train` call resumes at `7`; epoch `4` (below the resumed index) is not
run, and the first epoch run is `7`. -/
theorem train_starts_at_resumed_epoch_witness :
    trainCalls (programTrace ⟨"out", "proj", "full.csv", "test.csv", "adam", [], "step", [], 10⟩
        false true ⟨0, 0, 0⟩ [(5, ⟨7, 1, 2, 3, Loss.val 4, Loss.val 2⟩)]) =
      [(10, 7, "out")] ∧
    (4 ∈ trainEpochs 7 10 ↔ 7 ≤ 4 ∧ 4 < 10) ∧
    (trainEpochs 7 10).head? = some 7 := by
  have h := train_starts_at_resumed_epoch
    ⟨"out", "proj", "full.csv", "test.csv", "adam", [], "step", [], 10⟩ false true
    ⟨0, 0, 0⟩ [(5, ⟨7, 1, 2, 3, Loss.val 4, Loss.val 2⟩)]
  have e7 : (load_last_model ⟨0, 0, 0⟩
      [(5, ⟨7, 1, 2, 3, Loss.val 4, Loss.val 2⟩)]).startEpoch = 7 := rfl
  refine ⟨?_, h.2.1 7 10 4, h.2.2 7 10 (by decide)⟩
  rw [← e7]
  exact h.1

/-- **C4.** For every configured maximum and every resumed start epoch,
the single `train` call receives exactly the configured
`UNETR_MAX_EPOCHS`, and no epoch index at or beyond the maximum is ever
executed by `train`. -/
theorem train_never_exceeds_max_epochs (cfg : Config) (w cu : Bool) (st0 : MOS)
    (dir : List (Nat × Checkpoint)) :
    (∀ p ∈ trainCalls (programTrace cfg w cu st0 dir), p.1 = cfg.maxEpochs) ∧
    (∀ s m e, e ∈ trainEpochs s m → e < m) := by
  constructor
  · intro p hp
    rw [trainCalls_programTrace] at hp
    simp only [List.mem_singleton] at hp
    rw [hp]
  · intro s m e he
    rw [trainEpochs, List.mem_range'_1] at he
    omega

/-- Witness for C4 at concrete bounds: epoch `5` run from start `3`
with maximum `6` is below the maximum. -/
theorem train_never_exceeds_max_epochs_witness :
    (5 : Nat) ∈ trainEpochs 3 6 ∧ 5 < 6 :=
  ⟨by decide,
   (train_never_exceeds_max_epochs ⟨"o", "p", "f", "t", "oc", [], "sc", [], 6⟩ true true
      ⟨0, 0, 0⟩ []).2 3 6 5 (by decide)⟩

/-- **C5.** The data-loading call receives exactly the configured
`TEST_CSV` and `FULL_DATA_CSV`, and the final `test` call receives
exactly the configured `TEST_CSV`, for every configuration — the trace
contains no other data-loading or test call that could substitute a
fallback path. -/
theorem csv_paths_passed_exactly (cfg : Config) (w cu : Bool) (st0 : MOS)
    (dir : List (Nat × Checkpoint)) :
    loadDataCalls (programTrace cfg w cu st0 dir) = [(cfg.testCsv, cfg.fullDataCsv)] ∧
    testCalls (programTrace cfg w cu st0 dir) = [(cfg.outputDir, cfg.testCsv)] := by
  cases w <;> constructor <;>
    simp [programTrace, setupTrace, mainBody, loadDataCalls, testCalls]

/-- **C6.** The phases of the run — configure environment (0), build
model (1), build optimizer/scheduler (2), checkpoint resume (3), build
data loaders (4), training loop (5), final evaluation (6) — occur in
exactly this order, each non-setup phase exactly once, on every run;
the phase sequence is monotone (strictly linear control flow). -/
theorem linear_control_flow (cfg : Config) (w cu : Bool) (st0 : MOS)
    (dir : List (Nat × Checkpoint)) :
    (programTrace cfg w cu st0 dir).map phase =
      (if w then [0, 0, 0, 0, 0] else [0, 0, 0, 0, 0, 0, 0]) ++
        [0, 0, 1, 1, 2, 2, 3, 4, 5, 6] ∧
    List.Chain' (· ≤ ·) ((programTrace cfg w cu st0 dir).map phase) := by
  have h1 : (programTrace cfg w cu st0 dir).map phase =
      (if w then [0, 0, 0, 0, 0] else [0, 0, 0, 0, 0, 0, 0]) ++
        [0, 0, 1, 1, 2, 2, 3, 4, 5, 6] := by
    cases w <;> simp [programTrace, setupTrace, mainBody, phase]
  refine ⟨h1, ?_⟩
  rw [h1]
  cases w <;> simp [List.chain'_cons]

/-- **C7.** The run writes exactly two environment variables, in order:
`PYTORCH_CUDA_ALLOC_CONF` (allocator behaviour) and
`TORCH_USE_CUDA_DSA` (device-side debugging) — and no others, for every
configuration and every run. -/
theorem exactly_two_env_writes (cfg : Config) (w cu : Bool) (st0 : MOS)
    (dir : List (Nat × Checkpoint)) :
    envWrites (programTrace cfg w cu st0 dir) =
      [("PYTORCH_CUDA_ALLOC_CONF", "expandable_segments:True"),
       ("TORCH_USE_CUDA_DSA", "1")] := by
  cases w <;> simp [programTrace, setupTrace, mainBody, envWrites]

/-- If every step before `ev` succeeds and `ev` fails, a sequential run
aborts with exactly that error, neither caught nor wrapped. -/
theorem runSteps_prefix_error (f : Event → Except String Unit)
    (pre : List Event) (ev : Event) (rest : List Event) (msg : String)
    (hpre : ∀ x ∈ pre, f x = Except.ok ())
    (hev : f ev = Except.error msg) :
    runSteps f (pre ++ ev :: rest) = Except.error msg := by
  induction pre with
  | nil => simp [runSteps, hev]
  | cons a pre' ih =>
    have ha : f a = Except.ok () := hpre a (List.mem_cons_self a pre')
    simp only [List.cons_append, runSteps, ha]
    exact ih fun x hx => hpre x (List.mem_cons_of_mem a hx)

/-- **C8.** Whatever step of the run the external framework fails on,
the error propagates unchanged out of the program: the run's result is
exactly the error the framework raised, with no catch, wrap or retry
anywhere in the entry point. -/
theorem errors_propagate_unchanged (cfg : Config) (w cu : Bool) (st0 : MOS)
    (dir : List (Nat × Checkpoint)) (f : Event → Except String Unit)
    (pre : List Event) (ev : Event) (rest : List Event) (msg : String)
    (htr : programTrace cfg w cu st0 dir = pre ++ ev :: rest)
    (hpre : ∀ x ∈ pre, f x = Except.ok ())
    (hev : f ev = Except.error msg) :
    runProgram cfg w cu st0 dir f = Except.error msg := by
  rw [runProgram, htr]
  exact runSteps_prefix_error f pre ev rest msg hpre hev

/-- Witness for C8: a framework that fails on the very first step makes
the whole run return exactly that error. -/
theorem errors_propagate_unchanged_witness :
    runProgram ⟨"out", "proj", "full.csv", "test.csv", "adam", [], "step", [], 3⟩ true false
        ⟨0, 0, 0⟩ [] (fun _ => Except.error "device unavailable") =
      Except.error "device unavailable" :=
  errors_propagate_unchanged ⟨"out", "proj", "full.csv", "test.csv", "adam", [], "step", [], 3⟩
    true false ⟨0, 0, 0⟩ [] (fun _ => Except.error "device unavailable")
    [] Event.printConfigEv
    [Event.setEnvVar "PYTORCH_CUDA_ALLOC_CONF" "expandable_segments:True",
     Event.setCudnnBenchmark true,
     Event.setEnvVar "TORCH_USE_CUDA_DSA" "1",
     Event.selectDevice false,
     Event.selectDevice false,
     Event.makeDirs "out" true,
     Event.buildUNETR 3 1 1 (128, 160, 128),
     Event.dataParallel,
     Event.buildOptimizer "adam" [],
     Event.buildScheduler "step" [],
     Event.loadLastModelEv "out",
     Event.loadDataEv "test.csv" "full.csv",
     Event.trainEv 3 0 "out",
     Event.testEv "out" "test.csv"]
    "device unavailable" rfl (by simp) rfl

/-- Counterexample to C9 as stated: two configurations that differ in
every field produce the identical hard-coded UNETR construction
`(3, 1, 1, (128, 160, 128))` and the identical hard-coded wandb run
name `x`, so some behaviour of the entry point is determined by
hard-coded values rather than configuration. -/
theorem hardcoded_values_counterexample :
    (⟨"o1", "p1", "f1", "t1", "c1", [("lr", 1)], "d1", [("s", 1)], 1⟩ : Config) ≠
      (⟨"o2", "p2", "f2", "t2", "c2", [("lr", 2)], "d2", [("s", 2)], 2⟩ : Config) ∧
    unetrBuilds (programTrace ⟨"o1", "p1", "f1", "t1", "c1", [("lr", 1)], "d1", [("s", 1)], 1⟩
        false true ⟨0, 0, 0⟩ []) =
      unetrBuilds (programTrace ⟨"o2", "p2", "f2", "t2", "c2", [("lr", 2)], "d2", [("s", 2)], 2⟩
        false true ⟨0, 0, 0⟩ []) ∧
    unetrBuilds (programTrace ⟨"o1", "p1", "f1", "t1", "c1", [("lr", 1)], "d1", [("s", 1)], 1⟩
        false true ⟨0, 0, 0⟩ []) = [(3, 1, 1, (128, 160, 128))] ∧
    runNameWrites (programTrace ⟨"o1", "p1", "f1", "t1", "c1", [("lr", 1)], "d1", [("s", 1)], 1⟩
        false true ⟨0, 0, 0⟩ []) =
      runNameWrites (programTrace ⟨"o2", "p2", "f2", "t2", "c2", [("lr", 2)], "d2", [("s", 2)], 2⟩
        false true ⟨0, 0, 0⟩ []) ∧
    runNameWrites (programTrace ⟨"o1", "p1", "f1", "t1", "c1", [("lr", 1)], "d1", [("s", 1)], 1⟩
        false true ⟨0, 0, 0⟩ []) = ["x"] :=
  ⟨by decide, rfl, rfl, rfl, rfl⟩

/-- **C9 (amended).** Every value the claim enumerates — output
directory, project name, CSV paths, optimizer/scheduler classes and
parameters, maximum epochs — reaches its call site exactly as
configured, for every configuration; but the UNETR architecture
arguments and the wandb run name are hard-coded constants of the entry
point. -/
theorem config_driven_behavior (cfg : Config) (cu : Bool) (st0 : MOS)
    (dir : List (Nat × Checkpoint)) :
    wandbInits (programTrace cfg false cu st0 dir) = [cfg.projectName] ∧
    makeDirsCalls (programTrace cfg false cu st0 dir) = [(cfg.outputDir, true)] ∧
    optimizerBuilds (programTrace cfg false cu st0 dir) =
      [(cfg.optimizerClass, cfg.optimizerParams)] ∧
    schedulerBuilds (programTrace cfg false cu st0 dir) =
      [(cfg.schedulerClass, cfg.schedulerParams)] ∧
    loadDataCalls (programTrace cfg false cu st0 dir) = [(cfg.testCsv, cfg.fullDataCsv)] ∧
    trainCalls (programTrace cfg false cu st0 dir) =
      [(cfg.maxEpochs, (load_last_model st0 dir).startEpoch, cfg.outputDir)] ∧
    testCalls (programTrace cfg false cu st0 dir) = [(cfg.outputDir, cfg.testCsv)] ∧
    unetrBuilds (programTrace cfg false cu st0 dir) = [(3, 1, 1, (128, 160, 128))] ∧
    runNameWrites (programTrace cfg false cu st0 dir) = ["x"] := by
  refine ⟨?_, ?_, ?_, ?_, ?_, ?_, ?_, ?_, ?_⟩ <;>
    simp [programTrace, setupTrace, mainBody, wandbInits, makeDirsCalls,
          optimizerBuilds, schedulerBuilds, loadDataCalls, trainCalls,
          testCalls, unetrBuilds, runNameWrites]

/-- **C10.** `os.makedirs` with `exist_ok=True` succeeds on every
filesystem state — whether or not the configured output directory
already exists — and leaves the directory present; and in every run the
`makedirs` call on the output directory precedes the `load_last_model`
call on that same directory. -/
theorem makedirs_before_resume (cfg : Config) (w cu : Bool) (st0 : MOS)
    (dir : List (Nat × Checkpoint)) (fs : List String) :
    (∃ fs', makedirs fs cfg.outputDir true = Except.ok fs' ∧ cfg.outputDir ∈ fs') ∧
    (∃ pre mid post, programTrace cfg w cu st0 dir =
      pre ++ Event.makeDirs cfg.outputDir true ::
        (mid ++ Event.loadLastModelEv cfg.outputDir :: post)) := by
  constructor
  · by_cases h : cfg.outputDir ∈ fs
    · exact ⟨fs, by simp [makedirs, h], h⟩
    · exact ⟨cfg.outputDir :: fs, by simp [makedirs, h], List.mem_cons_self _ _⟩
  · cases w with
    | true =>
      exact ⟨[Event.printConfigEv,
              Event.setEnvVar "PYTORCH_CUDA_ALLOC_CONF" "expandable_segments:True",
              Event.setCudnnBenchmark true,
              Event.setEnvVar "TORCH_USE_CUDA_DSA" "1",
              Event.selectDevice cu, Event.selectDevice cu],
             [Event.buildUNETR 3 1 1 (128, 160, 128), Event.dataParallel,
              Event.buildOptimizer cfg.optimizerClass cfg.optimizerParams,
              Event.buildScheduler cfg.schedulerClass cfg.schedulerParams],
             [Event.loadDataEv cfg.testCsv cfg.fullDataCsv,
              Event.trainEv cfg.maxEpochs (load_last_model st0 dir).startEpoch cfg.outputDir,
              Event.testEv cfg.outputDir cfg.testCsv], rfl⟩
    | false =>
      exact ⟨[Event.printConfigEv,
              Event.setEnvVar "PYTORCH_CUDA_ALLOC_CONF" "expandable_segments:True",
              Event.wandbInit cfg.projectName, Event.setWandbRunName "x",
              Event.setCudnnBenchmark true,
              Event.setEnvVar "TORCH_USE_CUDA_DSA" "1",
              Event.selectDevice cu, Event.selectDevice cu],
             [Event.buildUNETR 3 1 1 (128, 160, 128), Event.dataParallel,
              Event.buildOptimizer cfg.optimizerClass cfg.optimizerParams,
              Event.buildScheduler cfg.schedulerClass cfg.schedulerParams],
             [Event.loadDataEv cfg.testCsv cfg.fullDataCsv,
              Event.trainEv cfg.maxEpochs (load_last_model st0 dir).startEpoch cfg.outputDir,
              Event.testEv cfg.outputDir cfg.testCsv], rfl⟩
